import Mathlib

/-!
Shallow embedding of the RTCP codec in `rtp/src/rtcp/mod.rs`: the header
codec (`RtcpHeader::parse` / `write_to`), the `RtcpFb` tagged variant, the
compound-packet builder (`RtcpFb::build_feedback`) and the decode iterator
(`FbIter`, modelled from the spec since `iter.rs` is not part of the
sources).  Byte buffers are `List Nat` with every entry a byte value;
machine-integer arithmetic that can overflow in the source is modelled with
explicit `% 2^w`.
-/

set_option maxRecDepth 8000

namespace Rtcp

/-- Big-endian byte splitting of a 16-bit value (`u16::to_be_bytes`). -/
def toBe16 (n : Nat) : List Nat := [n / 256 % 256, n % 256]

/-- Big-endian byte splitting of a 32-bit value (`u32::to_be_bytes`). -/
def toBe32 (n : Nat) : List Nat :=
  [n / 16777216 % 256, n / 65536 % 256, n / 256 % 256, n % 256]

/-- Big-endian byte splitting of a 64-bit value (`u64::to_be_bytes`). -/
def toBe64 (n : Nat) : List Nat :=
  [n / 72057594037927936 % 256, n / 281474976710656 % 256,
   n / 1099511627776 % 256, n / 4294967296 % 256,
   n / 16777216 % 256, n / 65536 % 256, n / 256 % 256, n % 256]

/-- Big-endian recombination of two bytes (`u16::from_be_bytes`). -/
def fromBe16 (a b : Nat) : Nat := a * 256 + b

/-- Big-endian recombination of four bytes (`u32::from_be_bytes`). -/
def fromBe32 (a b c d : Nat) : Nat := a * 16777216 + b * 65536 + c * 256 + d

/-- Big-endian recombination of eight bytes (`u64::from_be_bytes`). -/
def fromBe64 (a b c d e f g h : Nat) : Nat :=
  a * 72057594037927936 + b * 281474976710656 + c * 1099511627776 +
    d * 4294967296 + e * 16777216 + f * 65536 + g * 256 + h

/-- Modelled from the spec: `fmt.rs` is not among the sources.  The
transport-feedback kinds; only Nack is currently recognized (wire code 1,
RFC 4585). -/
inductive TransportType where
  | Nack
deriving DecidableEq, Repr

/-- Modelled from the spec: decoder for the transport-feedback kind;
an unrecognized kind fails. -/
def TransportType.from_u8 (v : Nat) : Option TransportType :=
  match v with
  | 1 => some .Nack
  | _ => none

/-- Modelled from the spec: `fmt.rs` is not among the sources.  The
payload-feedback kinds currently recognized (wire codes 1 and 4, RFC 4585). -/
inductive PayloadType where
  | PictureLossIndication
  | FullIntraRequest
deriving DecidableEq, Repr

/-- Modelled from the spec: decoder for the payload-feedback kind;
an unrecognized kind fails. -/
def PayloadType.from_u8 (v : Nat) : Option PayloadType :=
  match v with
  | 1 => some .PictureLossIndication
  | 4 => some .FullIntraRequest
  | _ => none

/-- Modelled from the spec: the four mutually exclusive interpretations of
the header's 5-bit format field, keyed by packet type. -/
inductive FeedbackMessageType where
  | ReceptionReport (count : Nat)
  | SourceCount (count : Nat)
  | Subtype (value : Nat)
  | TransportFeedback (tt : TransportType)
  | PayloadFeedback (pt : PayloadType)
  | NotUsed
deriving DecidableEq, Repr

/-- Modelled from the spec: the raw 5-bit wire value of the format field
(`FeedbackMessageType::as_u8`). -/
def FeedbackMessageType.as_u8 : FeedbackMessageType → Nat
  | .ReceptionReport n => n
  | .SourceCount n => n
  | .Subtype n => n
  | .TransportFeedback .Nack => 1
  | .PayloadFeedback .PictureLossIndication => 1
  | .PayloadFeedback .FullIntraRequest => 4
  | .NotUsed => 0

/-- Count carried by a report-count or source-count format field; 0 for the
other shapes. -/
def FeedbackMessageType.count : FeedbackMessageType → Nat
  | .ReceptionReport n => n
  | .SourceCount n => n
  | _ => 0

/-- Kind of RTCP packet (`RtcpType`). -/
inductive RtcpType where
  | SenderReport
  | ReceiverReport
  | SourceDescription
  | Goodbye
  | ApplicationDefined
  | TransportLayerFeedback
  | PayloadSpecificFeedback
  | ExtendedReport
deriving DecidableEq, Repr

/-- Wire code of the packet type (`RtcpType as u8`). -/
def RtcpType.as_u8 : RtcpType → Nat
  | .SenderReport => 200
  | .ReceiverReport => 201
  | .SourceDescription => 202
  | .Goodbye => 203
  | .ApplicationDefined => 204
  | .TransportLayerFeedback => 205
  | .PayloadSpecificFeedback => 206
  | .ExtendedReport => 207

/-- Decoder of packet-type codes (`RtcpType::from_u8`); unknown codes fail. -/
def RtcpType.from_u8 (v : Nat) : Option RtcpType :=
  match v with
  | 200 => some .SenderReport
  | 201 => some .ReceiverReport
  | 202 => some .SourceDescription
  | 203 => some .Goodbye
  | 204 => some .ApplicationDefined
  | 205 => some .TransportLayerFeedback
  | 206 => some .PayloadSpecificFeedback
  | 207 => some .ExtendedReport
  | _ => none

/-- Fixed header length of each packet type (`RtcpType::header_len`):
4 when the trailing SSRC belongs to the body, 8 when it belongs to the
header. -/
def RtcpType.header_len : RtcpType → Nat
  | .SenderReport => 4
  | .ReceiverReport => 8
  | .SourceDescription => 4
  | .Goodbye => 4
  | .ApplicationDefined => 4
  | .TransportLayerFeedback => 8
  | .PayloadSpecificFeedback => 8
  | .ExtendedReport => 8

/-- The RTCP header (`RtcpHeader`): `length` is the total packet length in
bytes, including the header. -/
structure RtcpHeader where
  version : Nat
  has_padding : Bool
  fmt : FeedbackMessageType
  packet_type : RtcpType
  length : Nat
  ssrc : Nat
deriving DecidableEq, Repr

/-- Parsing of an RTCP header (`RtcpHeader::parse`).  The source computes
the decoded length in `u16` arithmetic (`(u16::from_be_bytes(..) + 1) * 4`),
so the embedding applies the `u16` wrap `% 65536` (release-mode semantics;
a debug build would panic on the overflow). -/
def RtcpHeader.parse (buf : List Nat) (is_srtcp : Bool) : Option RtcpHeader :=
  if buf.length < 8 then none
  else
    let b0 := buf.getD 0 0
    let version := (b0 &&& 192) >>> 6
    if version ≠ 2 then none
    else
      let has_padding := decide (0 < b0 &&& 32)
      let fmt_n := b0 &&& 31
      match RtcpType.from_u8 (buf.getD 1 0) with
      | none => none
      | some packet_type =>
        let fmtO : Option FeedbackMessageType :=
          match packet_type with
          | .SenderReport => some (.ReceptionReport fmt_n)
          | .ReceiverReport => some (.ReceptionReport fmt_n)
          | .SourceDescription => some (.SourceCount fmt_n)
          | .Goodbye => some (.SourceCount fmt_n)
          | .ApplicationDefined => some (.Subtype fmt_n)
          | .TransportLayerFeedback =>
              (TransportType.from_u8 fmt_n).map .TransportFeedback
          | .PayloadSpecificFeedback =>
              (PayloadType.from_u8 fmt_n).map .PayloadFeedback
          | .ExtendedReport => some .NotUsed
        match fmtO with
        | none => none
        | some fmt =>
          if is_srtcp ∧ packet_type ≠ .SenderReport ∧
              packet_type ≠ .ReceiverReport then none
          else
            let length :=
              (fromBe16 (buf.getD 2 0) (buf.getD 3 0) + 1) * 4 % 65536
            let ssrc :=
              fromBe32 (buf.getD 4 0) (buf.getD 5 0) (buf.getD 6 0)
                (buf.getD 7 0)
            some ⟨version, has_padding, fmt, packet_type, length, ssrc⟩

/-- Serialization of an RTCP header (`RtcpHeader::write_to`): returns the 4
(or, when the packet type's header length is 8, the 8) bytes the source
writes at the start of the packet.  The source asserts `length % 4 == 0`
and casts `(length / 4) - 1` to `u16`, modelled by `% 65536`. -/
def RtcpHeader.write_to (h : RtcpHeader) : List Nat :=
  let lenField := (h.length / 4 - 1) % 65536
  [128 ||| h.fmt.as_u8, h.packet_type.as_u8] ++ toBe16 lenField ++
    (if h.packet_type.header_len = 8 then toBe32 (h.ssrc % 4294967296) else [])

/-- Sender-report body (`SenderInfo` in `sr.rs`, which is not among the
sources): SSRC, NTP-scale timestamp, RTP timestamp, cumulative packet and
octet counts. -/
structure SenderInfo where
  ssrc : Nat
  ntp_time : Nat
  rtp_time : Nat
  sender_packet_count : Nat
  sender_octet_count : Nat
deriving DecidableEq, Repr

/-- Modelled from the spec: `sr.rs` is not among the sources.  24-byte
(`SR_LEN`) big-endian body layout of a sender report, RFC 3550 §6.4.1:
SSRC(4) NTP(8) RTP(4) packet count(4) octet count(4). -/
def SenderInfo.write_to (v : SenderInfo) : List Nat :=
  toBe32 (v.ssrc % 4294967296) ++ toBe64 (v.ntp_time % 18446744073709551616) ++
    toBe32 (v.rtp_time % 4294967296) ++
    toBe32 (v.sender_packet_count % 4294967296) ++
    toBe32 (v.sender_octet_count % 4294967296)

/-- Modelled from the spec: decoding of a 24-byte sender-report body,
inverse layout of SenderInfo.write_to, assumed available to FbIter. -/
def SenderInfo.parse (b : List Nat) : SenderInfo :=
  { ssrc := fromBe32 (b.getD 0 0) (b.getD 1 0) (b.getD 2 0) (b.getD 3 0)
    ntp_time := fromBe64 (b.getD 4 0) (b.getD 5 0) (b.getD 6 0) (b.getD 7 0)
      (b.getD 8 0) (b.getD 9 0) (b.getD 10 0) (b.getD 11 0)
    rtp_time := fromBe32 (b.getD 12 0) (b.getD 13 0) (b.getD 14 0) (b.getD 15 0)
    sender_packet_count :=
      fromBe32 (b.getD 16 0) (b.getD 17 0) (b.getD 18 0) (b.getD 19 0)
    sender_octet_count :=
      fromBe32 (b.getD 20 0) (b.getD 21 0) (b.getD 22 0) (b.getD 23 0) }

/-- Receiver-report block (`ReceiverReport` in `rr.rs`, which is not among
the sources). -/
structure ReceiverReport where
  ssrc : Nat
  fraction_lost : Nat
  packets_lost : Nat
  max_seq : Nat
  jitter : Nat
  last_sr_time : Nat
  last_sr_delay : Nat
deriving DecidableEq, Repr

/-- Modelled from the spec: `rr.rs` is not among the sources.  24-byte
(`RR_LEN`) big-endian report-block layout, RFC 3550 §6.4.1: SSRC(4)
fraction lost(1) cumulative packets lost(3) highest sequence(4) jitter(4)
last SR timestamp(4) delay since last SR(4). -/
def ReceiverReport.write_to (v : ReceiverReport) : List Nat :=
  toBe32 (v.ssrc % 4294967296) ++ [v.fraction_lost % 256] ++
    [v.packets_lost / 65536 % 256, v.packets_lost / 256 % 256,
     v.packets_lost % 256] ++
    toBe32 (v.max_seq % 4294967296) ++ toBe32 (v.jitter % 4294967296) ++
    toBe32 (v.last_sr_time % 4294967296) ++
    toBe32 (v.last_sr_delay % 4294967296)

/-- Modelled from the spec: decoding of a 24-byte report block, inverse
layout of ReceiverReport.write_to, assumed available to FbIter. -/
def ReceiverReport.parse (b : List Nat) : ReceiverReport :=
  { ssrc := fromBe32 (b.getD 0 0) (b.getD 1 0) (b.getD 2 0) (b.getD 3 0)
    fraction_lost := b.getD 4 0
    packets_lost := (b.getD 5 0) * 65536 + (b.getD 6 0) * 256 + b.getD 7 0
    max_seq := fromBe32 (b.getD 8 0) (b.getD 9 0) (b.getD 10 0) (b.getD 11 0)
    jitter := fromBe32 (b.getD 12 0) (b.getD 13 0) (b.getD 14 0) (b.getD 15 0)
    last_sr_time :=
      fromBe32 (b.getD 16 0) (b.getD 17 0) (b.getD 18 0) (b.getD 19 0)
    last_sr_delay :=
      fromBe32 (b.getD 20 0) (b.getD 21 0) (b.getD 22 0) (b.getD 23 0) }

/-- Modelled from the spec: `sdes.rs` is not among the sources.  A source
description: SSRC plus descriptive chunks, opaque to the core. -/
structure Sdes where
  ssrc : Nat
  chunks : List Nat
deriving DecidableEq, Repr

/-- Modelled from the spec: `nack.rs` is not among the sources.  A negative
acknowledgement: SSRC plus an opaque loss-bitmask payload. -/
structure Nack where
  ssrc : Nat
  bitmask : Nat
deriving DecidableEq, Repr

/-- The tagged variant over the seven feedback message kinds (`RtcpFb`).
A `Goodbye`, `Pli` or `Fir` carries a bare SSRC. -/
inductive RtcpFb where
  | SenderInfo (v : SenderInfo)
  | ReceiverReport (v : ReceiverReport)
  | Sdes (v : Sdes)
  | Goodbye (v : Nat)
  | Nack (v : Nack)
  | Pli (v : Nat)
  | Fir (v : Nat)
deriving DecidableEq, Repr

/-- Sort key used by the builder (`RtcpFb::ord_no`). -/
def RtcpFb.ord_no : RtcpFb → Nat
  | .SenderInfo _ => 0
  | .ReceiverReport _ => 1
  | .Goodbye _ => 2
  | .Sdes _ => 3
  | .Nack _ => 4
  | .Pli _ => 5
  | .Fir _ => 6

/-- Owning SSRC of a feedback value (`RtcpFb::ssrc`). -/
def RtcpFb.ssrc : RtcpFb → Nat
  | .SenderInfo v => v.ssrc
  | .ReceiverReport v => v.ssrc
  | .Sdes v => v.ssrc
  | .Goodbye v => v
  | .Nack v => v.ssrc
  | .Pli v => v
  | .Fir v => v

/-- Body serialization dispatch (`RtcpFb::write_to`).  The `Sdes`, `Nack`,
`Pli` and `Fir` arms are `todo!()` panics in the source and are never
reached from `build_feedback`; the embedding returns `[]` for them. -/
def RtcpFb.write_to : RtcpFb → List Nat
  | .SenderInfo v => v.write_to
  | .ReceiverReport v => v.write_to
  | .Goodbye v => toBe32 (v % 4294967296)
  | .Sdes _ => []
  | .Nack _ => []
  | .Pli _ => []
  | .Fir _ => []

/-- Header construction for a group led by this feedback value
(`RtcpFb::as_header`): the count is already truncated to `u8` at the call
sites. -/
def RtcpFb.as_header (fb : RtcpFb) (count : Nat) (length : Nat) : RtcpHeader :=
  let (fmt, packet_type, ssrc) : FeedbackMessageType × RtcpType × Nat :=
    match fb with
    | .SenderInfo v => (.ReceptionReport count, .SenderReport, v.ssrc)
    | .ReceiverReport _ => (.ReceptionReport count, .ReceiverReport, 0)
    | .Sdes _ => (.SourceCount count, .SourceDescription, 0)
    | .Goodbye _ => (.SourceCount count, .Goodbye, 0)
    | .Nack _ => (.TransportFeedback .Nack, .TransportLayerFeedback, 0)
    | .Pli _ => (.PayloadFeedback .PictureLossIndication,
        .PayloadSpecificFeedback, 0)
    | .Fir _ => (.PayloadFeedback .FullIntraRequest,
        .PayloadSpecificFeedback, 0)
  { version := 2, has_padding := false, fmt := fmt,
    packet_type := packet_type, length := length, ssrc := ssrc }

/-- Body length of a sender report (`SR_LEN`). -/
def SR_LEN : Nat := 6 * 4

/-- Body length of a receiver-report block (`RR_LEN`). -/
def RR_LEN : Nat := 6 * 4

/-- Discriminator for `matches!(f, RtcpFb::SenderInfo(_))`. -/
def RtcpFb.isSI : RtcpFb → Bool
  | .SenderInfo _ => true
  | _ => false

/-- Discriminator for `matches!(f, RtcpFb::ReceiverReport(_))`. -/
def RtcpFb.isRR : RtcpFb → Bool
  | .ReceiverReport _ => true
  | _ => false

/-- Discriminator for `matches!(f, RtcpFb::Goodbye(_))`. -/
def RtcpFb.isGB : RtcpFb → Bool
  | .Goodbye _ => true
  | _ => false

/-- Number of ReceiverReport items anywhere in the queue
(`feedback.iter().filter(..ReceiverReport..).count()`). -/
def countRR (q : List RtcpFb) : Nat := (q.filter RtcpFb.isRR).length

/-- Number of Goodbye items anywhere in the queue
(`feedback.iter().filter(..Goodbye..).count()`). -/
def countGB (q : List RtcpFb) : Nat := (q.filter RtcpFb.isGB).length

/-- One step of the builder's scan-and-remove: find the position of the
first ReceiverReport and remove it (`position` + `remove(pos)`). -/
def findRR : List RtcpFb → Option (RtcpFb × List RtcpFb)
  | [] => none
  | x :: xs =>
    if x.isRR then some (x, xs)
    else (findRR xs).map (fun p => (p.1, x :: p.2))

/-- Pull `n` ReceiverReport items out of the queue by repeated
scan-and-remove, returning them in the order yanked together with the
remaining queue.  The source `expect`s enough reports to exist; the `none`
branch is unreachable at its call site. -/
def yankRRs : Nat → List RtcpFb → List RtcpFb × List RtcpFb
  | 0, q => ([], q)
  | n + 1, q =>
    match findRR q with
    | none => ([], q)
    | some (rr, q') =>
      let p := yankRRs n q'
      (rr :: p.1, p.2)

theorem findRR_length {q : List RtcpFb} {rr : RtcpFb} {q' : List RtcpFb}
    (h : findRR q = some (rr, q')) : q'.length + 1 = q.length := by
  induction q generalizing rr q' with
  | nil => simp [findRR] at h
  | cons x xs ih =>
    by_cases hx : x.isRR
    · simp [findRR, hx] at h
      simp [← h.2]
    · cases hf : findRR xs with
      | none => simp [findRR, hx, hf] at h
      | some p =>
        obtain ⟨a, b⟩ := p
        simp [findRR, hx, hf] at h
        obtain ⟨h1, h2⟩ := h
        subst h2
        have hb := ih hf
        simp only [List.length_cons]
        omega

theorem yankRRs_length (n : Nat) (q : List RtcpFb) :
    (yankRRs n q).2.length ≤ q.length := by
  induction n generalizing q with
  | zero => simp [yankRRs]
  | succ n ih =>
    unfold yankRRs
    match h : findRR q with
    | none => simp
    | some (rr, q') =>
      simp only
      calc (yankRRs n q').2.length ≤ q'.length := ih q'
        _ ≤ q.length := by have := findRR_length h; omega

/-- One serialized group emitted by the builder: the count value passed to
`as_header` (after the `as u8` cast), the total number of feedback items
the group carries, and the bytes written into the buffer for it. -/
structure GroupOut where
  count : Nat
  items : Nat
  bytes : List Nat
deriving DecidableEq, Repr

/-- Pass 1 of `build_feedback`: while the queue head is a SenderInfo or
ReceiverReport, emit one SR/RR group.  Returns the emitted groups, the
remaining queue and the remaining buffer capacity.  Each iteration of the
source loop dequeues at least one item, so the loop is bounded by the queue
length; the structural `fuel` argument (instantiated with the queue length
in `pass1`) carries that bound and keeps the definition kernel-computable.
The source's buffer-too-small `return abs` leaves the function with the
head still SI/RR, so the Goodbye pass that follows it is a no-op in exactly
the cases where this embedding returns early. -/
def pass1Go (fuel : Nat) (q : List RtcpFb) (bufLen : Nat) :
    List GroupOut × List RtcpFb × Nat :=
  match fuel with
  | 0 => ([], q, bufLen)
  | fuel + 1 =>
    match q with
    | [] => ([], [], bufLen)
    | fb :: rest =>
      if fb.isSI || fb.isRR then
        let needed := if fb.isSI then RtcpType.SenderReport.header_len + SR_LEN
          else RtcpType.ReceiverReport.header_len + RR_LEN
        let xrr := if fb.isSI then 0 else 1
        if bufLen < needed then ([], fb :: rest, bufLen)
        else
          let max_rr := min (countRR rest) (min 31 ((bufLen - needed) / RR_LEN))
          let length := needed + max_rr * RR_LEN
          let count := max_rr + xrr
          let header := fb.as_header (count % 256) length
          let yr := yankRRs max_rr rest
          let bytes := header.write_to ++ fb.write_to ++
            (yr.1.map RtcpFb.write_to).flatten
          let r := pass1Go fuel yr.2 (bufLen - length)
          (⟨count % 256, 1 + max_rr, bytes⟩ :: r.1, r.2)
      else ([], fb :: rest, bufLen)

/-- Pass 1 of `build_feedback`, entered with enough fuel for its loop. -/
def pass1 (q : List RtcpFb) (bufLen : Nat) :
    List GroupOut × List RtcpFb × Nat :=
  pass1Go q.length q bufLen

/-- Pass 2 of `build_feedback`: while the queue head is a Goodbye, emit one
Goodbye group; the additional goodbyes are popped strictly from the front
of the queue.  As in pass 1, the structural `fuel` bounds the loop by the
queue length. -/
def pass2Go (fuel : Nat) (q : List RtcpFb) (bufLen : Nat) :
    List GroupOut × List RtcpFb × Nat :=
  match fuel with
  | 0 => ([], q, bufLen)
  | fuel + 1 =>
    match q with
    | .Goodbye s :: rest =>
      if bufLen < 4 + 4 then ([], RtcpFb.Goodbye s :: rest, bufLen)
      else
        let max_gb := min (countGB rest) (min 31 ((bufLen - (4 + 4)) / 4))
        let length := 4 + 4 + max_gb * 4
        let fb := RtcpFb.Goodbye s
        let header := fb.as_header (max_gb % 256) length
        let bytes := header.write_to ++ fb.write_to ++
          ((rest.take max_gb).map RtcpFb.write_to).flatten
        let r := pass2Go fuel (rest.drop max_gb) (bufLen - length)
        (⟨max_gb % 256, 1 + max_gb, bytes⟩ :: r.1, r.2)
    | q => ([], q, bufLen)

/-- Pass 2 of `build_feedback`, entered with enough fuel for its loop. -/
def pass2 (q : List RtcpFb) (bufLen : Nat) :
    List GroupOut × List RtcpFb × Nat :=
  pass2Go q.length q bufLen

/-- Priority order used by the builder's sort. -/
def ordLe (a b : RtcpFb) : Prop := a.ord_no ≤ b.ord_no

instance : DecidableRel ordLe := fun a b => Nat.decLe a.ord_no b.ord_no

instance : IsTotal RtcpFb ordLe := ⟨fun a b => Nat.le_total a.ord_no b.ord_no⟩

instance : IsTrans RtcpFb ordLe := ⟨fun _ _ _ => Nat.le_trans⟩

/-- The builder's stable priority sort
(`feedback.make_contiguous().sort_by_key(RtcpFb::ord_no)`).  Rust's
`sort_by_key` is a stable sort; insertion sort is stable too, and since a
stable sort of a given key function is unique, the two agree on every
queue. -/
def sortQ (q : List RtcpFb) : List RtcpFb :=
  q.insertionSort ordLe

/-- The two ordered passes of `build_feedback` over the sorted queue,
keeping the emitted groups. -/
def build_groups (q : List RtcpFb) (bufLen : Nat) :
    List GroupOut × List RtcpFb :=
  let s := sortQ q
  let r1 := pass1 s bufLen
  let r2 := pass2 r1.2.1 r1.2.2
  (r1.1 ++ r2.1, r2.2.1)

/-- The compound-packet builder (`RtcpFb::build_feedback`): returns the
number of bytes written, the remaining queue, and the bytes written. -/
def build_feedback (q : List RtcpFb) (bufLen : Nat) :
    Nat × List RtcpFb × List Nat :=
  let r := build_groups q bufLen
  let bytes := (r.1.map GroupOut.bytes).flatten
  (bytes.length, r.2, bytes)

/-- Modelled from the spec: `iter.rs` is not among the sources.  One walk
of the decode iterator: parse one header (non-SRTCP mode) at the cursor; on
failure the sequence ends; on success dispatch on the packet type — a
SenderReport header yields one SenderInfo followed by `count`
ReceiverReport items from the trailing 24-byte slots, a ReceiverReport
header yields `count` ReceiverReport items, SourceDescription/Goodbye
headers yield `count` items of the matching kind, and
transport/payload-feedback headers yield exactly one Nack/Pli/Fir item per
the format's kind (their body layout is outside the core, so only the
header SSRC is populated) — then advance the cursor by the header's
declared `length`.  The spec asserts the sequence is finite; the fuel bounds
the walk against a zero declared length. -/
def fbIterGo (fuel : Nat) (buf : List Nat) : List RtcpFb :=
  match fuel with
  | 0 => []
  | fuel + 1 =>
    match RtcpHeader.parse buf false with
    | none => []
    | some h =>
      let items : List RtcpFb :=
        match h.packet_type with
        | .SenderReport =>
          RtcpFb.SenderInfo (SenderInfo.parse (buf.drop 4)) ::
            (List.range h.fmt.count).map (fun i =>
              RtcpFb.ReceiverReport (ReceiverReport.parse
                (buf.drop (28 + i * 24))))
        | .ReceiverReport =>
          (List.range h.fmt.count).map (fun i =>
            RtcpFb.ReceiverReport (ReceiverReport.parse
              (buf.drop (8 + i * 24))))
        | .SourceDescription =>
          (List.range h.fmt.count).map (fun _ => RtcpFb.Sdes ⟨h.ssrc, []⟩)
        | .Goodbye =>
          (List.range h.fmt.count).map (fun i =>
            RtcpFb.Goodbye (fromBe32 (buf.getD (4 + i * 4) 0)
              (buf.getD (5 + i * 4) 0) (buf.getD (6 + i * 4) 0)
              (buf.getD (7 + i * 4) 0)))
        | .TransportLayerFeedback => [RtcpFb.Nack ⟨h.ssrc, 0⟩]
        | .PayloadSpecificFeedback =>
          match h.fmt with
          | .PayloadFeedback .PictureLossIndication => [RtcpFb.Pli h.ssrc]
          | .PayloadFeedback .FullIntraRequest => [RtcpFb.Fir h.ssrc]
          | _ => []
        | .ApplicationDefined => []
        | .ExtendedReport => []
      items ++ fbIterGo fuel (buf.drop h.length)

/-- Modelled from the spec: the decode entry point (`RtcpFb::feedback`),
demultiplexing a wire buffer into the sequence of decoded feedback
messages. -/
def RtcpFb.feedback (buf : List Nat) : List RtcpFb :=
  fbIterGo (buf.length + 1) buf

/-! Theorems about the claims. -/

/-- C1: the claim states every 5-bit count field written by
`build_feedback` satisfies `count ≤ 31`.  The code violates this: with 32
ReceiverReports queued and ample buffer, pass 1 dequeues one ReceiverReport
(`xrr = 1`) and appends `min(31, ...) = 31` more, so the count passed to
`as_header` is 32; the first written byte is `0x80 | 32 = 160`, i.e. the
overflow bleeds into the padding bit and leaves the 5-bit count bits at 0. -/
theorem claim_C1_count_field_overflows :
    ((build_groups
        (List.replicate 32 (RtcpFb.ReceiverReport ⟨9, 3, 1234, 4000, 5, 12, 1⟩))
        1200).1.map GroupOut.count = [32]) ∧
    ((build_feedback
        (List.replicate 32 (RtcpFb.ReceiverReport ⟨9, 3, 1234, 4000, 5, 12, 1⟩))
        1200).2.2.getD 0 0 = 160) ∧ ¬ 32 ≤ 31 := by
  refine ⟨by decide, by decide, by decide⟩

/-- C2: the claim states the decoded length equals `(be16 + 1) * 4` in
exact arithmetic for every 16-bit wire value, hence is a non-zero multiple
of 4.  The code computes it in `u16` arithmetic: for the wire value
`0xFFFF` the parse succeeds but the decoded length wraps to 0 (a debug
build would panic), while exact arithmetic gives 262144. -/
theorem claim_C2_length_wraps_to_zero :
    (RtcpHeader.parse [128, 200, 255, 255, 0, 0, 0, 0] false).map
      RtcpHeader.length = some 0 ∧
    (fromBe16 255 255 + 1) * 4 = 262144 := by
  refine ⟨by decide, by decide⟩

/-- C4: when 33 ReceiverReports plus one SenderInfo are enqueued and the
buffer is ample, exactly two SR/RR groups are emitted — the first an
SR-typed group (packet-type byte 200) carrying the SenderInfo plus 31
ReceiverReports (32 items, count field 31), the second a bare RR-typed
group (packet-type byte 201) carrying the remaining 2 ReceiverReports —
and decoding the emitted bytes yields the SenderInfo as the first item. -/
theorem claim_C4_two_groups_sender_info_first :
    ((build_groups
        ((List.range 33).map (fun i =>
          RtcpFb.ReceiverReport ⟨i + 2, 3, 1234, 4000, 5, 12, 1⟩) ++
          [RtcpFb.SenderInfo ⟨1, 77, 4, 5, 6⟩]) 1200).1.map (fun g =>
        (g.count, g.items, g.bytes.getD 1 0)) =
      [(31, 32, 200), (2, 2, 201)]) ∧
    ((RtcpFb.feedback (build_feedback
        ((List.range 33).map (fun i =>
          RtcpFb.ReceiverReport ⟨i + 2, 3, 1234, 4000, 5, 12, 1⟩) ++
          [RtcpFb.SenderInfo ⟨1, 77, 4, 5, 6⟩]) 1200).2.2).head? =
      some (RtcpFb.SenderInfo ⟨1, 77, 4, 5, 6⟩)) := by
  refine ⟨by decide, by decide⟩

/-- Every Goodbye group emitted by any run of the goodbye pass has a count
field one less than the number of goodbye values it carries. -/
theorem pass2Go_count_eq_items_sub_one (fuel : Nat) :
    ∀ (q : List RtcpFb) (n : Nat), ∀ g ∈ (pass2Go fuel q n).1,
      g.count + 1 = g.items := by
  induction fuel with
  | zero =>
    intro q n g hg
    simp [pass2Go] at hg
  | succ fuel ih =>
    intro q n g hg
    match q with
    | [] => simp [pass2Go] at hg
    | .SenderInfo v :: rest => simp [pass2Go] at hg
    | .ReceiverReport v :: rest => simp [pass2Go] at hg
    | .Sdes v :: rest => simp [pass2Go] at hg
    | .Nack v :: rest => simp [pass2Go] at hg
    | .Pli v :: rest => simp [pass2Go] at hg
    | .Fir v :: rest => simp [pass2Go] at hg
    | .Goodbye s :: rest =>
      by_cases hb : n < 4 + 4
      · simp [pass2Go, hb] at hg
      · rw [pass2Go] at hg
        simp only [if_neg hb, List.mem_cons] at hg
        rcases hg with hg | hg
        · subst hg
          simp only
          have hle : countGB rest ⊓ (31 ⊓ (n - (4 + 4)) / 4) ≤ 31 := by omega
          omega
        · exact ih _ _ g hg

/-- C10: every Goodbye group the builder emits carries `items ≥ 1` goodbye
values while its count field is `items - 1` (the goodbye written right
after the 4-byte header is not counted); in particular a queue holding a
single Goodbye produces a packet whose source-count bits are 0. -/
theorem claim_C10_goodbye_count_excludes_lead :
    (∀ (q : List RtcpFb) (n : Nat), ∀ g ∈ (pass2 q n).1,
      g.count + 1 = g.items) ∧
    ((build_groups [RtcpFb.Goodbye 7] 8).1.map (fun g =>
      (g.count, g.items)) = [(0, 1)]) ∧
    ((build_feedback [RtcpFb.Goodbye 7] 8).2.2.getD 0 0 &&& 31 = 0) := by
  refine ⟨?_, by decide, by decide⟩
  intro q n
  exact pass2Go_count_eq_items_sub_one q.length q n

/-- Witness for C10 at a concrete input: the group emitted for a queue of
two Goodbyes holds 2 items and its count field is 1. -/
theorem claim_C10_goodbye_count_excludes_lead_witness :
    ((pass2 [RtcpFb.Goodbye 7, RtcpFb.Goodbye 8] 20).1.headD
      ⟨5, 5, []⟩).count + 1 =
    ((pass2 [RtcpFb.Goodbye 7, RtcpFb.Goodbye 8] 20).1.headD ⟨5, 5, []⟩).items :=
  claim_C10_goodbye_count_excludes_lead.1 [RtcpFb.Goodbye 7, RtcpFb.Goodbye 8]
    20 _ (by decide)

/-- C7: `RtcpHeader::parse` fails for every buffer shorter than 8 bytes,
and for every buffer of at least 8 bytes whose first byte's top two bits
are not 2. -/
theorem claim_C7_header_validation :
    ∀ (buf : List Nat) (is_srtcp : Bool),
      (buf.length < 8 → RtcpHeader.parse buf is_srtcp = none) ∧
      (8 ≤ buf.length → (buf.getD 0 0 &&& 192) >>> 6 ≠ 2 →
        RtcpHeader.parse buf is_srtcp = none) := by
  intro buf is_srtcp
  constructor
  · intro h
    simp [RtcpHeader.parse, h]
  · intro h hv
    rw [List.getD_eq_getElem?_getD] at hv
    simp [RtcpHeader.parse, Nat.not_lt.2 h, hv]

/-- Witness for C7: a 3-byte buffer and an 8-byte buffer with version bits
0 both fail to parse. -/
theorem claim_C7_header_validation_witness :
    RtcpHeader.parse [1, 2, 3] false = none ∧
    RtcpHeader.parse [0, 200, 0, 1, 0, 0, 0, 0] false = none :=
  ⟨(claim_C7_header_validation [1, 2, 3] false).1 (by decide),
   (claim_C7_header_validation [0, 200, 0, 1, 0, 0, 0, 0] false).2 (by decide)
     (by decide)⟩

/-- C8: in SRTCP mode, any buffer whose packet-type byte does not decode to
SenderReport or ReceiverReport — a well-formed Goodbye in particular —
fails header decode. -/
theorem claim_C8_srtcp_requires_report :
    ∀ (buf : List Nat),
      RtcpType.from_u8 (buf.getD 1 0) ≠ some RtcpType.SenderReport →
      RtcpType.from_u8 (buf.getD 1 0) ≠ some RtcpType.ReceiverReport →
      RtcpHeader.parse buf true = none := by
  intro buf h1 h2
  rw [List.getD_eq_getElem?_getD] at h1 h2
  by_cases hlen : buf.length < 8
  · simp [RtcpHeader.parse, hlen]
  · by_cases hv : (buf[0]?.getD 0 &&& 192) >>> 6 = 2
    · cases hpt : RtcpType.from_u8 (buf[1]?.getD 0) with
      | none => simp [RtcpHeader.parse, hlen, hv, hpt]
      | some pt =>
        have hne1 : pt ≠ RtcpType.SenderReport := by
          rintro rfl; exact h1 hpt
        have hne2 : pt ≠ RtcpType.ReceiverReport := by
          rintro rfl; exact h2 hpt
        cases pt with
        | SenderReport => exact absurd rfl hne1
        | ReceiverReport => exact absurd rfl hne2
        | SourceDescription => simp [RtcpHeader.parse, hlen, hv, hpt]
        | Goodbye => simp [RtcpHeader.parse, hlen, hv, hpt]
        | ApplicationDefined => simp [RtcpHeader.parse, hlen, hv, hpt]
        | TransportLayerFeedback =>
          cases htt : TransportType.from_u8 (buf[0]?.getD 0 &&& 31) with
          | none => simp [RtcpHeader.parse, hlen, hv, hpt, htt]
          | some tt => simp [RtcpHeader.parse, hlen, hv, hpt, htt]
        | PayloadSpecificFeedback =>
          cases hptf : PayloadType.from_u8 (buf[0]?.getD 0 &&& 31) with
          | none => simp [RtcpHeader.parse, hlen, hv, hpt, hptf]
          | some ptf => simp [RtcpHeader.parse, hlen, hv, hpt, hptf]
        | ExtendedReport => simp [RtcpHeader.parse, hlen, hv, hpt]
    · simp [RtcpHeader.parse, hlen, hv]

/-- Witness for C8: an otherwise well-formed Goodbye packet fails header
decode in SRTCP mode (and, for contrast, parses in plain RTCP mode). -/
theorem claim_C8_srtcp_requires_report_witness :
    RtcpHeader.parse [128, 203, 0, 1, 0, 0, 0, 7] true = none :=
  claim_C8_srtcp_requires_report [128, 203, 0, 1, 0, 0, 0, 7] (by decide)
    (by decide)

/-- A serialized sender-report body is always 24 bytes (`SR_LEN`). -/
theorem si_write_to_length (v : SenderInfo) :
    v.write_to.length = 24 := by
  simp [SenderInfo.write_to, toBe32, toBe64]

/-- A serialized report block is always 24 bytes (`RR_LEN`). -/
theorem rr_write_to_length (v : ReceiverReport) :
    v.write_to.length = 24 := by
  simp [ReceiverReport.write_to, toBe32]

/-- C3: when the head of the sorted queue is a SenderInfo, ReceiverReport
or Goodbye and the buffer is smaller than the minimum single-item size for
that head (28, 32 and 8 bytes respectively), `build_feedback` writes
nothing, returns 0, and leaves every queued item in the queue (in sort
order). -/
theorem claim_C3_insufficient_buffer :
    ∀ (q : List RtcpFb) (n : Nat),
      ((∃ v, (sortQ q).head? = some (RtcpFb.SenderInfo v)) → n < 28 →
        build_feedback q n = (0, sortQ q, [])) ∧
      ((∃ v, (sortQ q).head? = some (RtcpFb.ReceiverReport v)) → n < 32 →
        build_feedback q n = (0, sortQ q, [])) ∧
      ((∃ v, (sortQ q).head? = some (RtcpFb.Goodbye v)) → n < 8 →
        build_feedback q n = (0, sortQ q, [])) := by
  intro q n
  refine ⟨?_, ?_, ?_⟩
  · rintro ⟨v, hh⟩ hlt
    rw [List.head?_eq_some_iff] at hh
    obtain ⟨t, hs⟩ := hh
    simp [build_feedback, build_groups, hs, pass1, pass2, pass1Go, pass2Go,
      RtcpFb.isSI, RtcpFb.isRR, RtcpType.header_len, SR_LEN, hlt]
  · rintro ⟨v, hh⟩ hlt
    rw [List.head?_eq_some_iff] at hh
    obtain ⟨t, hs⟩ := hh
    simp [build_feedback, build_groups, hs, pass1, pass2, pass1Go, pass2Go,
      RtcpFb.isSI, RtcpFb.isRR, RtcpType.header_len, RR_LEN, hlt]
  · rintro ⟨v, hh⟩ hlt
    rw [List.head?_eq_some_iff] at hh
    obtain ⟨t, hs⟩ := hh
    simp [build_feedback, build_groups, hs, pass1, pass2, pass1Go, pass2Go,
      RtcpFb.isSI, RtcpFb.isRR, hlt]

/-- Witness for C3: a 27-byte buffer with a queued SenderInfo, a 31-byte
buffer with a queued ReceiverReport, and a 7-byte buffer with a queued
Goodbye all return 0 and leave the queue as sorted. -/
theorem claim_C3_insufficient_buffer_witness :
    build_feedback [RtcpFb.SenderInfo ⟨1, 77, 4, 5, 6⟩] 27 =
      (0, sortQ [RtcpFb.SenderInfo ⟨1, 77, 4, 5, 6⟩], []) ∧
    build_feedback [RtcpFb.ReceiverReport ⟨2, 3, 1234, 4000, 5, 12, 1⟩] 31 =
      (0, sortQ [RtcpFb.ReceiverReport ⟨2, 3, 1234, 4000, 5, 12, 1⟩], []) ∧
    build_feedback [RtcpFb.Goodbye 7] 7 = (0, sortQ [RtcpFb.Goodbye 7], []) :=
  ⟨(claim_C3_insufficient_buffer [RtcpFb.SenderInfo ⟨1, 77, 4, 5, 6⟩] 27).1
      ⟨⟨1, 77, 4, 5, 6⟩, by decide⟩ (by decide),
   (claim_C3_insufficient_buffer
      [RtcpFb.ReceiverReport ⟨2, 3, 1234, 4000, 5, 12, 1⟩] 31).2.1
      ⟨⟨2, 3, 1234, 4000, 5, 12, 1⟩, by decide⟩ (by decide),
   (claim_C3_insufficient_buffer [RtcpFb.Goodbye 7] 7).2.2
      ⟨7, by decide⟩ (by decide)⟩

/-- C5: with a large-enough buffer, one SenderInfo alone encodes to exactly
28 bytes, one ReceiverReport alone to exactly 32 bytes, and one
ReceiverReport plus one SenderInfo to exactly 52 bytes (the sort puts the
SenderInfo first and the ReceiverReport rides in the trailing slot of the
SR group). -/
theorem claim_C5_grouping_arithmetic :
    ∀ (si : SenderInfo) (rr : ReceiverReport) (n1 n2 n3 : Nat),
      28 ≤ n1 → 32 ≤ n2 → 52 ≤ n3 →
      (build_feedback [RtcpFb.SenderInfo si] n1).1 = 28 ∧
      (build_feedback [RtcpFb.ReceiverReport rr] n2).1 = 32 ∧
      (build_feedback [RtcpFb.ReceiverReport rr, RtcpFb.SenderInfo si] n3).1
        = 52 := by
  intro si rr n1 n2 n3 h1 h2 h3
  refine ⟨?_, ?_, ?_⟩
  · simp [build_feedback, build_groups, sortQ, pass1, pass2, pass1Go, pass2Go,
      RtcpFb.isSI, RtcpFb.isRR, RtcpType.header_len, SR_LEN, RR_LEN,
      Nat.not_lt.2 h1, countRR, yankRRs, RtcpFb.write_to,
      si_write_to_length, RtcpHeader.write_to, RtcpFb.as_header,
      toBe16, toBe32]
  · simp [build_feedback, build_groups, sortQ, pass1, pass2, pass1Go, pass2Go,
      RtcpFb.isSI, RtcpFb.isRR, RtcpType.header_len, SR_LEN, RR_LEN,
      Nat.not_lt.2 h2, countRR, yankRRs, RtcpFb.write_to,
      rr_write_to_length, RtcpHeader.write_to, RtcpFb.as_header,
      toBe16, toBe32]
  · have hsort : sortQ [RtcpFb.ReceiverReport rr, RtcpFb.SenderInfo si] =
        [RtcpFb.SenderInfo si, RtcpFb.ReceiverReport rr] := by
      simp [sortQ, ordLe, RtcpFb.ord_no]
    have hmax : min (countRR [RtcpFb.ReceiverReport rr])
        (min 31 ((n3 - 28) / 24)) = 1 := by
      simp only [countRR, List.filter, RtcpFb.isRR, List.length_cons,
        List.length_nil]
      omega
    have h28 : ¬ n3 < 28 := by omega
    simp [build_feedback, build_groups, hsort, pass1, pass2, pass1Go, pass2Go,
      RtcpFb.isSI, RtcpFb.isRR, RtcpType.header_len, SR_LEN, RR_LEN,
      h28, hmax, yankRRs, findRR, RtcpFb.write_to,
      si_write_to_length, rr_write_to_length,
      RtcpHeader.write_to, RtcpFb.as_header, toBe16, toBe32]

/-- Witness for C5 at concrete inputs: the byte counts of the three
queue shapes at exactly-fitting buffers of 1200 bytes. -/
theorem claim_C5_grouping_arithmetic_witness :
    (build_feedback [RtcpFb.SenderInfo ⟨1, 77, 4, 5, 6⟩] 1200).1 = 28 ∧
    (build_feedback [RtcpFb.ReceiverReport ⟨2, 3, 1234, 4000, 5, 12, 1⟩]
      1200).1 = 32 ∧
    (build_feedback [RtcpFb.ReceiverReport ⟨2, 3, 1234, 4000, 5, 12, 1⟩,
      RtcpFb.SenderInfo ⟨1, 77, 4, 5, 6⟩] 1200).1 = 52 :=
  claim_C5_grouping_arithmetic ⟨1, 77, 4, 5, 6⟩ ⟨2, 3, 1234, 4000, 5, 12, 1⟩
    1200 1200 1200 (by decide) (by decide) (by decide)

/-- The feedback kinds the builder leaves in the queue: Sdes, Nack, Pli
and Fir (their serialization is the unfinished `todo!()` arms). -/
def RtcpFb.isLeftover : RtcpFb → Bool
  | .Sdes _ => true
  | .Nack _ => true
  | .Pli _ => true
  | .Fir _ => true
  | _ => false

theorem isLeftover_iff_ord (x : RtcpFb) :
    x.isLeftover = true ↔ 3 ≤ x.ord_no := by
  cases x <;> simp [RtcpFb.isLeftover, RtcpFb.ord_no]

theorem isGB_iff_ord (x : RtcpFb) : x.isGB = true ↔ x.ord_no = 2 := by
  cases x <;> simp [RtcpFb.isGB, RtcpFb.ord_no]

theorem isRR_not_leftover {x : RtcpFb} (h : x.isRR = true) :
    x.isLeftover = false := by
  cases x <;> simp_all [RtcpFb.isRR, RtcpFb.isLeftover]

theorem isGB_not_leftover {x : RtcpFb} (h : x.isGB = true) :
    x.isLeftover = false := by
  cases x <;> simp_all [RtcpFb.isGB, RtcpFb.isLeftover]

theorem findRR_sublist {q q' : List RtcpFb} {rr : RtcpFb}
    (h : findRR q = some (rr, q')) : q'.Sublist q := by
  induction q generalizing rr q' with
  | nil => simp [findRR] at h
  | cons x xs ih =>
    by_cases hx : x.isRR
    · simp [findRR, hx] at h
      exact h.2 ▸ List.sublist_cons_self x xs
    · cases hf : findRR xs with
      | none => simp [findRR, hx, hf] at h
      | some p =>
        obtain ⟨a, b⟩ := p
        simp [findRR, hx, hf] at h
        obtain ⟨h1, h2⟩ := h
        subst h2
        exact (ih hf).cons₂ x

theorem findRR_filter {q q' : List RtcpFb} {rr : RtcpFb}
    (h : findRR q = some (rr, q')) :
    q'.filter RtcpFb.isLeftover = q.filter RtcpFb.isLeftover := by
  induction q generalizing rr q' with
  | nil => simp [findRR] at h
  | cons x xs ih =>
    by_cases hx : x.isRR
    · simp [findRR, hx] at h
      rw [← h.2, List.filter_cons, isRR_not_leftover hx]
      simp
    · cases hf : findRR xs with
      | none => simp [findRR, hx, hf] at h
      | some p =>
        obtain ⟨a, b⟩ := p
        simp [findRR, hx, hf] at h
        obtain ⟨h1, h2⟩ := h
        subst h2
        rw [List.filter_cons, List.filter_cons, ih hf]

theorem yankRRs_sublist (n : Nat) (q : List RtcpFb) :
    (yankRRs n q).2.Sublist q := by
  induction n generalizing q with
  | zero => simp [yankRRs]
  | succ n ih =>
    unfold yankRRs
    cases hf : findRR q with
    | none => simp
    | some p =>
      obtain ⟨rr, q'⟩ := p
      simp only
      exact (ih q').trans (findRR_sublist hf)

theorem yankRRs_filter (n : Nat) (q : List RtcpFb) :
    (yankRRs n q).2.filter RtcpFb.isLeftover = q.filter RtcpFb.isLeftover := by
  induction n generalizing q with
  | zero => simp [yankRRs]
  | succ n ih =>
    unfold yankRRs
    cases hf : findRR q with
    | none => simp
    | some p =>
      obtain ⟨rr, q'⟩ := p
      simp only
      rw [ih q', findRR_filter hf]

theorem pass1Go_sublist (fuel : Nat) :
    ∀ (q : List RtcpFb) (n : Nat), (pass1Go fuel q n).2.1.Sublist q := by
  induction fuel with
  | zero => intro q n; simp [pass1Go]
  | succ fuel ih =>
    intro q n
    match q with
    | [] => simp [pass1Go]
    | fb :: rest =>
      rw [pass1Go]
      by_cases hk : (fb.isSI || fb.isRR) = true
      · rw [if_pos hk]
        by_cases hb : n < if fb.isSI then RtcpType.SenderReport.header_len +
            SR_LEN else RtcpType.ReceiverReport.header_len + RR_LEN
        · rw [if_pos hb]
        · rw [if_neg hb]
          simp only
          refine ((ih _ _).trans (yankRRs_sublist _ _)).trans ?_
          exact List.sublist_cons_self fb rest
      · rw [if_neg hk]

theorem pass1Go_filter (fuel : Nat) :
    ∀ (q : List RtcpFb) (n : Nat),
      (pass1Go fuel q n).2.1.filter RtcpFb.isLeftover =
        q.filter RtcpFb.isLeftover := by
  induction fuel with
  | zero => intro q n; simp [pass1Go]
  | succ fuel ih =>
    intro q n
    match q with
    | [] => simp [pass1Go]
    | fb :: rest =>
      rw [pass1Go]
      by_cases hk : (fb.isSI || fb.isRR) = true
      · rw [if_pos hk]
        by_cases hb : n < if fb.isSI then RtcpType.SenderReport.header_len +
            SR_LEN else RtcpType.ReceiverReport.header_len + RR_LEN
        · rw [if_pos hb]
        · rw [if_neg hb]
          simp only
          rw [ih, yankRRs_filter]
          have hfb : fb.isLeftover = false := by
            rcases Bool.or_eq_true_iff.1 hk with h | h
            · cases fb <;> simp_all [RtcpFb.isSI, RtcpFb.isLeftover]
            · exact isRR_not_leftover h
          rw [List.filter_cons, hfb]
          simp
      · rw [if_neg hk]

theorem pass2Go_sublist (fuel : Nat) :
    ∀ (q : List RtcpFb) (n : Nat), (pass2Go fuel q n).2.1.Sublist q := by
  induction fuel with
  | zero => intro q n; simp [pass2Go]
  | succ fuel ih =>
    intro q n
    match q with
    | [] => simp [pass2Go]
    | .SenderInfo v :: rest => simp [pass2Go]
    | .ReceiverReport v :: rest => simp [pass2Go]
    | .Sdes v :: rest => simp [pass2Go]
    | .Nack v :: rest => simp [pass2Go]
    | .Pli v :: rest => simp [pass2Go]
    | .Fir v :: rest => simp [pass2Go]
    | .Goodbye s :: rest =>
      rw [pass2Go]
      by_cases hb : n < 4 + 4
      · rw [if_pos hb]
      · rw [if_neg hb]
        simp only
        refine ((ih _ _).trans (List.drop_sublist _ _)).trans ?_
        exact List.sublist_cons_self _ rest

/-- In a sorted queue whose elements all have priority at least 2, the
first `countGB` positions are exactly the Goodbye items. -/
theorem sorted_take_goodbyes :
    ∀ (r : List RtcpFb), List.Pairwise ordLe r → (∀ x ∈ r, 2 ≤ x.ord_no) →
      ∀ m, m ≤ countGB r → ∀ x ∈ r.take m, x.isGB = true := by
  intro r
  induction r with
  | nil =>
    intro _ _ m _ x hx
    simp at hx
  | cons y ys ih =>
    intro hs h2 m hm x hx
    match m with
    | 0 => simp at hx
    | m + 1 =>
      by_cases hy : y.isGB
      · rw [List.take_succ_cons] at hx
        rcases List.mem_cons.1 hx with rfl | hx'
        · exact hy
        · refine ih hs.of_cons (fun z hz => h2 z (List.mem_cons_of_mem y hz))
            m ?_ x hx'
          have : countGB (y :: ys) = countGB ys + 1 := by
            simp [countGB, List.filter_cons, hy]
          omega
      · exfalso
        have hy3 : 3 ≤ y.ord_no := by
          have h2y : 2 ≤ y.ord_no := h2 y (List.mem_cons_self y ys)
          have : y.ord_no ≠ 2 := fun hc => hy ((isGB_iff_ord y).2 hc)
          omega
        have hnone : ∀ z ∈ ys, z.isGB = false := by
          intro z hz
          have hle : ordLe y z := (List.pairwise_cons.1 hs).1 z hz
          have : 3 ≤ z.ord_no := le_trans hy3 hle
          cases hzg : z.isGB
          · rfl
          · exact absurd ((isGB_iff_ord z).1 hzg) (by omega)
        have hyf : y.isGB = false := Bool.eq_false_iff.2 hy
        have hfil : List.filter RtcpFb.isGB ys = [] := by
          rw [List.filter_eq_nil_iff]
          intro z hz
          simp [hnone z hz]
        have hcount : countGB (y :: ys) = 0 := by
          simp [countGB, List.filter_cons, hyf, hfil]
        omega

theorem pass2Go_filter (fuel : Nat) :
    ∀ (q : List RtcpFb) (n : Nat), List.Pairwise ordLe q →
      (pass2Go fuel q n).2.1.filter RtcpFb.isLeftover =
        q.filter RtcpFb.isLeftover := by
  induction fuel with
  | zero => intro q n _; simp [pass2Go]
  | succ fuel ih =>
    intro q n hs
    match q with
    | [] => simp [pass2Go]
    | .SenderInfo v :: rest => simp [pass2Go]
    | .ReceiverReport v :: rest => simp [pass2Go]
    | .Sdes v :: rest => simp [pass2Go]
    | .Nack v :: rest => simp [pass2Go]
    | .Pli v :: rest => simp [pass2Go]
    | .Fir v :: rest => simp [pass2Go]
    | .Goodbye s :: rest =>
      rw [pass2Go]
      by_cases hb : n < 4 + 4
      · rw [if_pos hb]
      · rw [if_neg hb]
        simp only
        have hs' : List.Pairwise ordLe rest := hs.of_cons
        have h2 : ∀ x ∈ rest, 2 ≤ x.ord_no := by
          intro x hx
          have hle : ordLe (RtcpFb.Goodbye s) x :=
            (List.pairwise_cons.1 hs).1 x hx
          simpa [ordLe, RtcpFb.ord_no] using hle
        generalize hm : min (countGB rest) (min 31 ((n - (4 + 4)) / 4)) = m
        have hmle : m ≤ countGB rest := by
          rw [← hm]; exact Nat.min_le_left _ _
        have hdrop : List.Pairwise ordLe (rest.drop m) :=
          List.Pairwise.sublist (List.drop_sublist _ _) hs'
        rw [ih _ _ hdrop]
        have htake : ∀ x ∈ rest.take m, x.isGB = true :=
          sorted_take_goodbyes rest hs' h2 m hmle
        have htakeF : (rest.take m).filter RtcpFb.isLeftover = [] := by
          rw [List.filter_eq_nil_iff]
          intro z hz
          simp [isGB_not_leftover (htake z hz)]
        have hsplit : rest.filter RtcpFb.isLeftover =
            (rest.take m).filter RtcpFb.isLeftover ++
              (rest.drop m).filter RtcpFb.isLeftover := by
          rw [← List.filter_append, List.take_append_drop]
        rw [List.filter_cons]
        have hgbl : (RtcpFb.Goodbye s).isLeftover = false := rfl
        simp [hgbl, hsplit, htakeF]

/-- A queue sorted by priority splits as its non-leftover items followed by
its leftover items. -/
theorem sorted_split_leftovers :
    ∀ (l : List RtcpFb), List.Pairwise ordLe l →
      l = l.filter (fun x => ! x.isLeftover) ++ l.filter RtcpFb.isLeftover := by
  intro l
  induction l with
  | nil => simp
  | cons x xs ih =>
    intro hs
    by_cases hx : x.isLeftover = true
    · have hall : ∀ y ∈ xs, y.isLeftover = true := by
        intro y hy
        have hle : ordLe x y := (List.pairwise_cons.1 hs).1 y hy
        have h3 : 3 ≤ x.ord_no := (isLeftover_iff_ord x).1 hx
        exact (isLeftover_iff_ord y).2 (le_trans h3 hle)
      have h1 : xs.filter (fun y => ! y.isLeftover) = [] := by
        rw [List.filter_eq_nil_iff]
        intro z hz
        simp [hall z hz]
      have h2 : xs.filter RtcpFb.isLeftover = xs :=
        List.filter_eq_self.2 (fun z hz => by simp [hall z hz])
      simp [List.filter_cons, hx, h1, h2]
    · have hx' : x.isLeftover = false := Bool.eq_false_iff.2 hx
      have hrec := ih hs.of_cons
      simp only [List.filter_cons, hx', Bool.not_false, if_pos]
      simp only [Bool.false_eq_true, if_false, List.cons_append]
      exact congrArg (List.cons x) hrec

/-- The sorted queue is sorted by priority. -/
theorem sortQ_sorted (q : List RtcpFb) : List.Pairwise ordLe (sortQ q) :=
  List.sorted_insertionSort ordLe q

/-- The sorted queue is a permutation of the original queue. -/
theorem sortQ_perm (q : List RtcpFb) : (sortQ q).Perm q :=
  List.perm_insertionSort ordLe q

/-- C9: after any `build_feedback` call, every Sdes, Nack, Pli and Fir item
that was in the queue before the call is still in the queue, sitting at its
tail in sort order; the builder never removes, serializes or drops these
kinds. -/
theorem claim_C9_leftovers_preserved :
    ∀ (q : List RtcpFb) (n : Nat), ∃ front : List RtcpFb,
      (build_feedback q n).2.1 = front ++
        (sortQ q).filter RtcpFb.isLeftover ∧
      front.all (fun x => ! x.isLeftover) = true ∧
      ((build_feedback q n).2.1.filter RtcpFb.isLeftover).Perm
        (q.filter RtcpFb.isLeftover) := by
  intro q n
  rcases h1 : pass1Go (sortQ q).length (sortQ q) n with ⟨g1, q1, r1⟩
  rcases h2 : pass2Go q1.length q1 r1 with ⟨g2, q2, r2⟩
  have hbuild : (build_feedback q n).2.1 = q2 := by
    simp [build_feedback, build_groups, pass1, pass2, h1, h2]
  have hsub1 : q1.Sublist (sortQ q) := by
    have := pass1Go_sublist (sortQ q).length (sortQ q) n
    rw [h1] at this
    exact this
  have hfil1 : q1.filter RtcpFb.isLeftover =
      (sortQ q).filter RtcpFb.isLeftover := by
    have := pass1Go_filter (sortQ q).length (sortQ q) n
    rw [h1] at this
    exact this
  have hsorted1 : List.Pairwise ordLe q1 :=
    List.Pairwise.sublist hsub1 (sortQ_sorted q)
  have hsub2 : q2.Sublist q1 := by
    have := pass2Go_sublist q1.length q1 r1
    rw [h2] at this
    exact this
  have hfil2 : q2.filter RtcpFb.isLeftover = q1.filter RtcpFb.isLeftover := by
    have := pass2Go_filter q1.length q1 r1 hsorted1
    rw [h2] at this
    exact this
  have hsortedOut : List.Pairwise ordLe q2 :=
    List.Pairwise.sublist hsub2 hsorted1
  have hfil : q2.filter RtcpFb.isLeftover =
      (sortQ q).filter RtcpFb.isLeftover := hfil2.trans hfil1
  refine ⟨q2.filter (fun x => ! x.isLeftover), ?_, ?_, ?_⟩
  · rw [hbuild, ← hfil]
    exact sorted_split_leftovers q2 hsortedOut
  · rw [List.all_eq_true]
    intro x hx
    exact (List.mem_filter.1 hx).2
  · rw [hbuild, hfil]
    exact (sortQ_perm q).filter RtcpFb.isLeftover

/-- The decode iterator yields nothing on an empty buffer. -/
theorem fbIterGo_nil (fuel : Nat) : fbIterGo fuel [] = [] := by
  cases fuel <;> simp [fbIterGo, RtcpHeader.parse]

/-- One unfolding of the decode iterator at positive fuel. -/
theorem fbIterGo_succ_eq (fuel : Nat) (buf : List Nat) :
    fbIterGo (fuel + 1) buf =
      (match RtcpHeader.parse buf false with
      | none => []
      | some h =>
        (match h.packet_type with
        | .SenderReport =>
          RtcpFb.SenderInfo (SenderInfo.parse (buf.drop 4)) ::
            (List.range h.fmt.count).map (fun i =>
              RtcpFb.ReceiverReport (ReceiverReport.parse
                (buf.drop (28 + i * 24))))
        | .ReceiverReport =>
          (List.range h.fmt.count).map (fun i =>
            RtcpFb.ReceiverReport (ReceiverReport.parse
              (buf.drop (8 + i * 24))))
        | .SourceDescription =>
          (List.range h.fmt.count).map (fun _ => RtcpFb.Sdes ⟨h.ssrc, []⟩)
        | .Goodbye =>
          (List.range h.fmt.count).map (fun i =>
            RtcpFb.Goodbye (fromBe32 (buf.getD (4 + i * 4) 0)
              (buf.getD (5 + i * 4) 0) (buf.getD (6 + i * 4) 0)
              (buf.getD (7 + i * 4) 0)))
        | .TransportLayerFeedback => [RtcpFb.Nack ⟨h.ssrc, 0⟩]
        | .PayloadSpecificFeedback =>
          match h.fmt with
          | .PayloadFeedback .PictureLossIndication => [RtcpFb.Pli h.ssrc]
          | .PayloadFeedback .FullIntraRequest => [RtcpFb.Fir h.ssrc]
          | _ => []
        | .ApplicationDefined => []
        | .ExtendedReport => []) ++ fbIterGo fuel (buf.drop h.length)) := rfl

/-- Parsing the header of an encoded single-SenderInfo packet. -/
theorem parse_sr_group (a b c d e : Nat) :
    RtcpHeader.parse ([128, 200, 0, 6] ++ SenderInfo.write_to ⟨a, b, c, d, e⟩)
      false = some ⟨2, false, FeedbackMessageType.ReceptionReport 0,
        RtcpType.SenderReport, 28,
        fromBe32 ((a % 4294967296) / 16777216 % 256)
          ((a % 4294967296) / 65536 % 256) ((a % 4294967296) / 256 % 256)
          ((a % 4294967296) % 256)⟩ := by
  simp [RtcpHeader.parse, SenderInfo.write_to, toBe32, toBe64,
    RtcpType.from_u8, fromBe16]
  refine ⟨by decide, by decide, by decide⟩

/-- Parsing the header of an encoded single-ReceiverReport packet. -/
theorem parse_rr_group (a b c d e f g : Nat) :
    RtcpHeader.parse ([129, 201, 0, 7, 0, 0, 0, 0] ++
      ReceiverReport.write_to ⟨a, b, c, d, e, f, g⟩) false =
      some ⟨2, false, FeedbackMessageType.ReceptionReport 1,
        RtcpType.ReceiverReport, 32, 0⟩ := by
  simp [RtcpHeader.parse, ReceiverReport.write_to, toBe32,
    RtcpType.from_u8, fromBe16, fromBe32]
  refine ⟨by decide, by decide, by decide⟩

/-- Decoding a serialized sender-report body restores the SenderInfo when
its fields fit the wire widths (u32/u64 fields). -/
theorem si_parse_write (a b c d e : Nat) (h1 : a < 4294967296)
    (h2 : b < 18446744073709551616) (h3 : c < 4294967296)
    (h4 : d < 4294967296) (h5 : e < 4294967296) :
    SenderInfo.parse (SenderInfo.write_to ⟨a, b, c, d, e⟩) =
      ⟨a, b, c, d, e⟩ := by
  simp [SenderInfo.parse, SenderInfo.write_to, toBe32, toBe64, fromBe32,
    fromBe64, List.getD]
  omega

/-- Decoding a serialized report block restores the ReceiverReport when its
fields fit the wire widths (u32 fields, 8-bit fraction lost, 24-bit
cumulative packets lost). -/
theorem rr_parse_write (a b c d e f g : Nat)
    (h1 : a < 4294967296) (h2 : b < 256) (h3 : c < 16777216)
    (h4 : d < 4294967296) (h5 : e < 4294967296) (h6 : f < 4294967296)
    (h7 : g < 4294967296) :
    ReceiverReport.parse (ReceiverReport.write_to ⟨a, b, c, d, e, f, g⟩) =
      ⟨a, b, c, d, e, f, g⟩ := by
  simp [ReceiverReport.parse, ReceiverReport.write_to, toBe32, fromBe32,
    List.getD]
  omega

/-- Decoding an encoded single-SenderInfo packet yields that SenderInfo. -/
theorem feedback_sr_single (a b c d e : Nat) (h1 : a < 4294967296)
    (h2 : b < 18446744073709551616) (h3 : c < 4294967296)
    (h4 : d < 4294967296) (h5 : e < 4294967296) :
    RtcpFb.feedback ([128, 200, 0, 6] ++ SenderInfo.write_to ⟨a, b, c, d, e⟩) =
      [RtcpFb.SenderInfo ⟨a, b, c, d, e⟩] := by
  have hw : (SenderInfo.write_to ⟨a, b, c, d, e⟩).length = 24 :=
    si_write_to_length _
  have hlen : ([128, 200, 0, 6] ++
      SenderInfo.write_to ⟨a, b, c, d, e⟩).length = 28 := by
    simp [hw]
  have hdrop4 : ([128, 200, 0, 6] ++
      SenderInfo.write_to ⟨a, b, c, d, e⟩).drop 4 =
      SenderInfo.write_to ⟨a, b, c, d, e⟩ :=
    List.drop_left' (by simp)
  have hdrop28 : ([128, 200, 0, 6] ++
      SenderInfo.write_to ⟨a, b, c, d, e⟩).drop 28 = [] := by
    rw [List.drop_eq_nil_iff]
    omega
  rw [RtcpFb.feedback, hlen, fbIterGo_succ_eq, parse_sr_group]
  simp only [FeedbackMessageType.count, List.range_zero, List.map_nil,
    hdrop4, hdrop28, fbIterGo_nil]
  rw [si_parse_write a b c d e h1 h2 h3 h4 h5]
  simp

/-- Decoding an encoded single-ReceiverReport packet yields that
ReceiverReport. -/
theorem feedback_rr_single (a b c d e f g : Nat) (h1 : a < 4294967296)
    (h2 : b < 256) (h3 : c < 16777216) (h4 : d < 4294967296)
    (h5 : e < 4294967296) (h6 : f < 4294967296) (h7 : g < 4294967296) :
    RtcpFb.feedback ([129, 201, 0, 7, 0, 0, 0, 0] ++
      ReceiverReport.write_to ⟨a, b, c, d, e, f, g⟩) =
      [RtcpFb.ReceiverReport ⟨a, b, c, d, e, f, g⟩] := by
  have hw : (ReceiverReport.write_to ⟨a, b, c, d, e, f, g⟩).length = 24 :=
    rr_write_to_length _
  have hlen : ([129, 201, 0, 7, 0, 0, 0, 0] ++
      ReceiverReport.write_to ⟨a, b, c, d, e, f, g⟩).length = 32 := by
    simp [hw]
  have hdrop8 : ([129, 201, 0, 7, 0, 0, 0, 0] ++
      ReceiverReport.write_to ⟨a, b, c, d, e, f, g⟩).drop 8 =
      ReceiverReport.write_to ⟨a, b, c, d, e, f, g⟩ :=
    List.drop_left' (by simp)
  have hdrop32 : ([129, 201, 0, 7, 0, 0, 0, 0] ++
      ReceiverReport.write_to ⟨a, b, c, d, e, f, g⟩).drop 32 = [] := by
    rw [List.drop_eq_nil_iff]
    omega
  rw [RtcpFb.feedback, hlen, fbIterGo_succ_eq, parse_rr_group]
  simp only [FeedbackMessageType.count, List.range_succ, List.range_zero,
    List.map_append, List.map_cons, List.map_nil, List.nil_append,
    List.append_nil, Nat.zero_mul, Nat.add_zero, hdrop8, hdrop32,
    fbIterGo_nil]
  rw [rr_parse_write a b c d e f g h1 h2 h3 h4 h5 h6 h7]

/-- Encoding a lone SenderInfo produces exactly the 4-byte SR header
followed by the 24-byte body. -/
theorem build_si_bytes (si : SenderInfo) (n : Nat) (h : 28 ≤ n) :
    (build_feedback [RtcpFb.SenderInfo si] n).2.2 =
      [128, 200, 0, 6] ++ si.write_to := by
  have hlor : (128 : Nat) ||| 0 = 128 := by decide
  simp [build_feedback, build_groups, sortQ, pass1, pass2, pass1Go, pass2Go,
    RtcpFb.isSI, RtcpFb.isRR, RtcpType.header_len, SR_LEN, RR_LEN,
    Nat.not_lt.2 h, countRR, yankRRs, RtcpFb.write_to, RtcpHeader.write_to,
    RtcpFb.as_header, FeedbackMessageType.as_u8, RtcpType.as_u8, toBe16, hlor]

/-- Encoding a lone ReceiverReport produces exactly the 8-byte RR header
(zero sender SSRC) followed by the 24-byte body. -/
theorem build_rr_bytes (rr : ReceiverReport) (n : Nat) (h : 32 ≤ n) :
    (build_feedback [RtcpFb.ReceiverReport rr] n).2.2 =
      [129, 201, 0, 7, 0, 0, 0, 0] ++ rr.write_to := by
  have hlor : (128 : Nat) ||| 1 = 129 := by decide
  simp [build_feedback, build_groups, sortQ, pass1, pass2, pass1Go, pass2Go,
    RtcpFb.isSI, RtcpFb.isRR, RtcpType.header_len, SR_LEN, RR_LEN,
    Nat.not_lt.2 h, countRR, yankRRs, RtcpFb.write_to, RtcpHeader.write_to,
    RtcpFb.as_header, FeedbackMessageType.as_u8, RtcpType.as_u8, toBe16,
    toBe32, hlor]

/-- C6: encoding any SenderInfo (and, separately, any single
ReceiverReport) whose fields fit their wire widths via `build_feedback`
into a large-enough buffer and decoding the bytes via `RtcpFb::feedback`
yields an equal value, all fields preserved exactly. -/
theorem claim_C6_round_trip :
    ∀ (si : SenderInfo) (rr : ReceiverReport) (n m : Nat),
      28 ≤ n → 32 ≤ m →
      si.ssrc < 4294967296 → si.ntp_time < 18446744073709551616 →
      si.rtp_time < 4294967296 → si.sender_packet_count < 4294967296 →
      si.sender_octet_count < 4294967296 →
      rr.ssrc < 4294967296 → rr.fraction_lost < 256 →
      rr.packets_lost < 16777216 → rr.max_seq < 4294967296 →
      rr.jitter < 4294967296 → rr.last_sr_time < 4294967296 →
      rr.last_sr_delay < 4294967296 →
      RtcpFb.feedback (build_feedback [RtcpFb.SenderInfo si] n).2.2 =
        [RtcpFb.SenderInfo si] ∧
      RtcpFb.feedback (build_feedback [RtcpFb.ReceiverReport rr] m).2.2 =
        [RtcpFb.ReceiverReport rr] := by
  intro si rr n m hn hm hs1 hs2 hs3 hs4 hs5 hr1 hr2 hr3 hr4 hr5 hr6 hr7
  obtain ⟨a, b, c, d, e⟩ := si
  obtain ⟨p, u1, u2, u3, u4, u5, u6⟩ := rr
  constructor
  · rw [build_si_bytes _ _ hn]
    exact feedback_sr_single a b c d e hs1 hs2 hs3 hs4 hs5
  · rw [build_rr_bytes _ _ hm]
    exact feedback_rr_single p u1 u2 u3 u4 u5 u6 hr1 hr2 hr3 hr4 hr5 hr6 hr7

/-- Witness for C6 at the test values: both round trips at a 1200-byte
buffer. -/
theorem claim_C6_round_trip_witness :
    RtcpFb.feedback
      (build_feedback [RtcpFb.SenderInfo ⟨1, 77, 4, 5, 6⟩] 1200).2.2 =
      [RtcpFb.SenderInfo ⟨1, 77, 4, 5, 6⟩] ∧
    RtcpFb.feedback
      (build_feedback [RtcpFb.ReceiverReport ⟨2, 3, 1234, 4000, 5, 12, 1⟩]
        1200).2.2 =
      [RtcpFb.ReceiverReport ⟨2, 3, 1234, 4000, 5, 12, 1⟩] :=
  claim_C6_round_trip ⟨1, 77, 4, 5, 6⟩ ⟨2, 3, 1234, 4000, 5, 12, 1⟩ 1200 1200
    (by decide) (by decide) (by decide) (by decide) (by decide) (by decide)
    (by decide) (by decide) (by decide) (by decide) (by decide) (by decide)
    (by decide) (by decide)

end Rtcp
